import Mathlib

/-!
Shallow embedding of the ANTA core (device abstraction, command collection,
result state machine, utility helpers and one BGP assertion) together with
proofs of the behavioural properties claimed for it.

Python dictionaries are modelled as association lists whose keys are unique
(a Python `dict` cannot hold the same key twice); iteration order of an
association list models the insertion order of the dictionary.
-/

/-- Python values as they occur in the dictionaries handled by
`get_failed_logs` (`anta/tools/utils.py`): `None`, integers and strings.
Structural equality models Python `==` on this fragment. -/
inductive PyVal where
  | none
  | int (z : Int)
  | str (s : String)
deriving DecidableEq, Repr

/-- Python `str()` on the `PyVal` fragment, as used by f-string
interpolation in `get_failed_logs`. -/
def PyVal.pyStr : PyVal → String
  | .none => "None"
  | .int z => toString z
  | .str s => s

/-- Python `dict.get(key)`: the value stored under `key`, or `None` when the
key is absent (`anta/tools/utils.py` line 29). -/
def dictGet : List (String × PyVal) → String → PyVal
  | [], _ => .none
  | (k, v) :: rest, key => if k = key then v else dictGet rest key

/-- The element message appended by `get_failed_logs` when the key is
missing from the actual output (`anta/tools/utils.py` line 34). -/
def notFoundMsg (element : String) (expected : PyVal) : String :=
  "\nExpected `" ++ expected.pyStr ++ "` as the " ++ element ++ ", but it was not found in the actual output."

/-- The element message appended by `get_failed_logs` when the actual value
differs from the expected one (`anta/tools/utils.py` line 36). -/
def insteadMsg (element : String) (expected actual : PyVal) : String :=
  "\nExpected `" ++ expected.pyStr ++ "` as the " ++ element ++ ", but found `" ++ actual.pyStr ++ "` instead."

/-- `get_failed_logs(expected_output, actual_output)` from
`anta/tools/utils.py` lines 11-38: iterate over the expected output, skip
keys whose actual value (via `dict.get`) equals the expected one, emit a
"not found" message when the actual value is `None` and an "instead"
message otherwise, and join all messages. -/
def get_failed_logs : List (String × PyVal) → List (String × PyVal) → String
  | [], _ => ""
  | (element, expected_data) :: rest, actual_output =>
    if dictGet actual_output element = expected_data then
      get_failed_logs rest actual_output
    else if dictGet actual_output element = .none then
      notFoundMsg element expected_data ++ get_failed_logs rest actual_output
    else
      insteadMsg element expected_data (dictGet actual_output element) ++ get_failed_logs rest actual_output

/-- Python `"".join` on a list of message strings, as `get_failed_logs`
applies it to `failed_logs` (`anta/tools/utils.py` line 38): plain
concatenation in list order. -/
def concatMsgs : List String → String
  | [] => ""
  | s :: rest => s ++ concatMsgs rest

theorem String.append_eq_empty_iff (s t : String) : s ++ t = "" ↔ s = "" ∧ t = "" := by
  constructor
  · intro h
    have hd : s.data ++ t.data = ([] : List Char) := congrArg String.data h
    rcases List.append_eq_nil.mp hd with ⟨hs, ht⟩
    exact ⟨congrArg String.mk hs, congrArg String.mk ht⟩
  · rintro ⟨rfl, rfl⟩
    rfl

theorem notFoundMsg_ne_empty (element : String) (expected : PyVal) :
    notFoundMsg element expected ≠ "" := by
  intro h
  unfold notFoundMsg at h
  have h2 := ((String.append_eq_empty_iff _ _).mp h).2
  exact absurd h2 (by decide)

theorem insteadMsg_ne_empty (element : String) (expected actual : PyVal) :
    insteadMsg element expected actual ≠ "" := by
  intro h
  unfold insteadMsg at h
  have h2 := ((String.append_eq_empty_iff _ _).mp h).2
  exact absurd h2 (by decide)

theorem get_failed_logs_empty_iff (e a : List (String × PyVal)) :
    get_failed_logs e a = "" ↔ ∀ p ∈ e, dictGet a p.1 = p.2 := by
  induction e with
  | nil => simp [get_failed_logs]
  | cons hd tl ih =>
    obtain ⟨k, v⟩ := hd
    simp only [get_failed_logs]
    by_cases hkv : dictGet a k = v
    · rw [if_pos hkv, ih]
      constructor
      · intro h p hp
        rcases List.mem_cons.mp hp with h1 | h2
        · rw [h1]; exact hkv
        · exact h p h2
      · intro h p hp
        exact h p (List.mem_cons_of_mem _ hp)
    · constructor
      · intro h
        exfalso
        rw [if_neg hkv] at h
        by_cases hnone : dictGet a k = PyVal.none
        · rw [if_pos hnone] at h
          exact notFoundMsg_ne_empty k v ((String.append_eq_empty_iff _ _).mp h).1
        · rw [if_neg hnone] at h
          exact insteadMsg_ne_empty k v _ ((String.append_eq_empty_iff _ _).mp h).1
      · intro h
        exact absurd (h (k, v) (List.mem_cons_self _ _)) hkv

theorem dictGet_append_notin (a : List (String × PyVal)) (k key : String) (v : PyVal)
    (hk : k ≠ key) : dictGet (a ++ [(k, v)]) key = dictGet a key := by
  induction a with
  | nil => simp [dictGet, hk]
  | cons hd tl ih =>
    obtain ⟨k', v'⟩ := hd
    by_cases h : k' = key
    · simp [dictGet, h]
    · simp [dictGet, h, ih]

theorem get_failed_logs_frame (e a : List (String × PyVal)) (k : String) (v : PyVal)
    (hk : ∀ p ∈ e, p.1 ≠ k) :
    get_failed_logs e (a ++ [(k, v)]) = get_failed_logs e a := by
  induction e with
  | nil => rfl
  | cons hd tl ih =>
    obtain ⟨k', v'⟩ := hd
    have hne : k ≠ k' := fun h => hk (k', v') (List.mem_cons_self _ _) (by simp [h.symm])
    have hget : dictGet (a ++ [(k, v)]) k' = dictGet a k' := dictGet_append_notin a k k' v hne
    have htl : ∀ p ∈ tl, p.1 ≠ k := fun p hp => hk p (List.mem_cons_of_mem _ hp)
    simp only [get_failed_logs, hget, ih htl]

theorem get_failed_logs_expected_none (e a : List (String × PyVal)) (k : String)
    (hk : dictGet a k = .none) :
    get_failed_logs ((k, .none) :: e) a = get_failed_logs e a := by
  simp only [get_failed_logs]
  rw [if_pos hk]

theorem get_failed_logs_concat (e a : List (String × PyVal)) :
    get_failed_logs e a =
      concatMsgs ((e.filter fun p => !(dictGet a p.1 == p.2)).map
        fun p => if dictGet a p.1 = PyVal.none then notFoundMsg p.1 p.2
          else insteadMsg p.1 p.2 (dictGet a p.1)) := by
  induction e with
  | nil => rfl
  | cons hd tl ih =>
    obtain ⟨k, v⟩ := hd
    simp only [get_failed_logs, List.filter_cons]
    by_cases hkv : dictGet a k = v
    · have hb : (!(dictGet a k == v)) = false := by simp [hkv]
      rw [if_pos hkv, hb]
      simp only [Bool.false_eq_true, if_false]
      exact ih
    · have hb : (!(dictGet a k == v)) = true := by simp [hkv]
      rw [if_neg hkv, hb, if_pos rfl]
      simp only [List.map_cons, concatMsgs]
      by_cases hnone : dictGet a k = PyVal.none
      · rw [if_pos hnone, if_pos hnone, ih]
      · rw [if_neg hnone, if_neg hnone, ih]

/-- C9: `get_failed_logs` returns the concatenation, in the iteration
order of the expected output, of exactly one message per key whose value
differs from `actual_output.get(key)` — the "was not found" message when
that lookup yields `None`, the "instead" message otherwise; the result is
the empty string exactly when every expected key's value is matched by
`actual_output.get(key)`; appending to the actual output a binding for a
key that does not occur among the expected keys never changes the log; and
an expected binding to `None` whose key resolves to `None` in the actual
output (in particular a key absent from the actual output) contributes no
message. -/
theorem anta_C9_get_failed_logs (e a : List (String × PyVal)) :
    (get_failed_logs e a =
      concatMsgs ((e.filter fun p => !(dictGet a p.1 == p.2)).map
        fun p => if dictGet a p.1 = PyVal.none then notFoundMsg p.1 p.2
          else insteadMsg p.1 p.2 (dictGet a p.1))) ∧
    (get_failed_logs e a = "" ↔ ∀ p ∈ e, dictGet a p.1 = p.2) ∧
    (∀ k v, (∀ p ∈ e, p.1 ≠ k) → get_failed_logs e (a ++ [(k, v)]) = get_failed_logs e a) ∧
    (∀ k, dictGet a k = .none → get_failed_logs ((k, .none) :: e) a = get_failed_logs e a) := by
  refine ⟨get_failed_logs_concat e a, get_failed_logs_empty_iff e a, ?_, ?_⟩
  · intro k v hk
    exact get_failed_logs_frame e a k v hk
  · intro k hk
    exact get_failed_logs_expected_none e a k hk

/-- Witness for C9 at concrete inputs: a mismatching pair in the style of
the repository's own unit tests (one differing key, one missing key, one
matching key), the matching pair, an extra actual-only key, and an
expected `None` binding for an absent key. -/
theorem anta_C9_witness :
    get_failed_logs [("name", .str "Jon"), ("age", .int 25), ("id", .int 4)]
        [("name", .str "Rob"), ("id", .int 4)] =
      concatMsgs (([(("name" : String), PyVal.str "Jon"), ("age", .int 25),
          ("id", .int 4)].filter fun p =>
            !(dictGet [("name", .str "Rob"), ("id", .int 4)] p.1 == p.2)).map
        fun p => if dictGet [("name", .str "Rob"), ("id", .int 4)] p.1 = PyVal.none
          then notFoundMsg p.1 p.2
          else insteadMsg p.1 p.2 (dictGet [("name", .str "Rob"), ("id", .int 4)] p.1)) ∧
    (get_failed_logs [("id", .int 1), ("name", .str "Alice")]
        [("id", .int 1), ("name", .str "Alice")] = ""
      ↔ ∀ p ∈ [(("id" : String), PyVal.int 1), ("name", .str "Alice")],
          dictGet [("id", .int 1), ("name", .str "Alice")] p.1 = p.2) ∧
    get_failed_logs [("id", .int 1)] ([("id", .int 1)] ++ [("extra", .str "x")]) =
      get_failed_logs [("id", .int 1)] [("id", .int 1)] ∧
    get_failed_logs [("ghost", .none), ("id", .int 1)] [("id", .int 1)] =
      get_failed_logs [("id", .int 1)] [("id", .int 1)] :=
  ⟨(anta_C9_get_failed_logs [("name", .str "Jon"), ("age", .int 25), ("id", .int 4)]
      [("name", .str "Rob"), ("id", .int 4)]).1,
   (anta_C9_get_failed_logs [("id", .int 1), ("name", .str "Alice")]
      [("id", .int 1), ("name", .str "Alice")]).2.1,
   (anta_C9_get_failed_logs [("id", .int 1)] [("id", .int 1)]).2.2.1 "extra" (.str "x")
     (by decide),
   (anta_C9_get_failed_logs [("id", .int 1)] [("id", .int 1)]).2.2.2 "ghost" (by decide)⟩

/-- Result status of a test. Modelled from the spec: "Result: one of
(unset, skipped, success, failure, error) plus an ordered list of
human-readable messages" (the result-manager module itself is not among
the provided source files). -/
inductive ResultStatus where
  | unset
  | skipped
  | success
  | failure
  | error
deriving DecidableEq, Repr

/-- A test result: a status plus the ordered message list. Modelled from
the spec (result-manager module not among the provided source files). -/
structure TestResult where
  result : ResultStatus
  messages : List String
deriving DecidableEq, Repr

/-- The result of a test before any call: status `unset`, no messages.
Modelled from the spec: "`unset` only before evaluation begins". -/
def TestResult.fresh : TestResult := ⟨.unset, []⟩

/-- Modelled from the spec: "success is the default, failure is sticky
once set" and "`skipped` is terminal" — reporting success never
overwrites an earlier failure or skip. -/
def TestResult.is_success (r : TestResult) : TestResult :=
  if r.result = .failure ∨ r.result = .skipped then r else { r with result := .success }

/-- Modelled from the spec: "`failure` may be reported multiple times
(messages accumulate) without overwriting an earlier `failure`" — each
report sets the status to failure and appends its message. -/
def TestResult.is_failure (r : TestResult) (message : String) : TestResult :=
  { result := .failure, messages := r.messages ++ [message] }

/-- Modelled from the spec: skipping records the status and its
explanatory message, but "failure is sticky once set", so a skip reported
after a failure changes nothing. -/
def TestResult.is_skipped (r : TestResult) (message : String) : TestResult :=
  if r.result = .failure then r else { result := .skipped, messages := r.messages ++ [message] }

/-- One call made by evaluation logic on its `TestResult`. -/
inductive REvent where
  | success
  | fail (message : String)
  | skip (message : String)
deriving DecidableEq, Repr

/-- Apply one evaluation call to a result. -/
def applyEvent (r : TestResult) : REvent → TestResult
  | .success => r.is_success
  | .fail m => r.is_failure m
  | .skip m => r.is_skipped m

/-- Run a finite sequence of evaluation calls on a result. -/
def runEvents (r : TestResult) (es : List REvent) : TestResult :=
  es.foldl applyEvent r

/-- The messages of the failure calls of a call sequence, in call order. -/
def failMsgs (es : List REvent) : List String :=
  es.filterMap fun e => match e with
    | .fail m => some m
    | _ => none

theorem runEvents_cons (r : TestResult) (e : REvent) (es : List REvent) :
    runEvents r (e :: es) = runEvents (applyEvent r e) es := rfl

theorem runEvents_sticky (es : List REvent) : ∀ r : TestResult, r.result = .failure →
    (runEvents r es).result = .failure ∧
    (runEvents r es).messages = r.messages ++ failMsgs es := by
  induction es with
  | nil =>
    intro r h
    exact ⟨h, by simp [runEvents, failMsgs]⟩
  | cons e tl ih =>
    intro r h
    cases e with
    | success =>
      rw [runEvents_cons]
      have ha : applyEvent r .success = r := by
        simp [applyEvent, TestResult.is_success, h]
      rw [ha]
      simpa [failMsgs] using ih r h
    | skip m =>
      rw [runEvents_cons]
      have ha : applyEvent r (.skip m) = r := by
        simp [applyEvent, TestResult.is_skipped, h]
      rw [ha]
      simpa [failMsgs] using ih r h
    | fail m =>
      rw [runEvents_cons]
      obtain ⟨h1, h2⟩ := ih (r.is_failure m) rfl
      refine ⟨h1, ?_⟩
      rw [show applyEvent r (.fail m) = r.is_failure m from rfl, h2]
      simp [TestResult.is_failure, failMsgs, List.append_assoc]

theorem runEvents_ge_one_fail (es : List REvent) : ∀ r : TestResult,
    0 < (failMsgs es).length →
    (runEvents r es).result = .failure ∧
    ∃ pre, (runEvents r es).messages = pre ++ failMsgs es := by
  induction es with
  | nil =>
    intro r h
    simp [failMsgs] at h
  | cons e tl ih =>
    intro r h
    cases e with
    | success =>
      rw [runEvents_cons]
      have h' : 0 < (failMsgs tl).length := by simpa [failMsgs] using h
      obtain ⟨h1, pre, h2⟩ := ih (applyEvent r .success) h'
      exact ⟨h1, pre, by simpa [failMsgs] using h2⟩
    | skip m =>
      rw [runEvents_cons]
      have h' : 0 < (failMsgs tl).length := by simpa [failMsgs] using h
      obtain ⟨h1, pre, h2⟩ := ih (applyEvent r (.skip m)) h'
      exact ⟨h1, pre, by simpa [failMsgs] using h2⟩
    | fail m =>
      rw [runEvents_cons]
      obtain ⟨h1, h2⟩ := runEvents_sticky tl (applyEvent r (.fail m)) rfl
      refine ⟨h1, r.messages, ?_⟩
      rw [h2]
      simp [applyEvent, TestResult.is_failure, failMsgs, List.append_assoc]

/-- C3: for every finite sequence of `is_success`/`is_failure`/`is_skipped`
calls on a fresh result that contains at least one `is_failure` call, the
final status is `failure` and the message list ends with all the failure
messages in call order (preceded only by messages recorded before the
first failure); moreover an `is_success` call on an already-failed result
changes nothing, so it can never revert the verdict. -/
theorem anta_C3_failure_sticky :
    (∀ es : List REvent, 0 < (failMsgs es).length →
      (runEvents TestResult.fresh es).result = .failure ∧
      ∃ pre, (runEvents TestResult.fresh es).messages = pre ++ failMsgs es) ∧
    (∀ r : TestResult, r.result = .failure → r.is_success = r) := by
  constructor
  · intro es h
    exact runEvents_ge_one_fail es TestResult.fresh h
  · intro r h
    simp [TestResult.is_success, h]

/-- Witness for C3: a concrete call sequence with two failures and an
interleaved success, and a concrete failed result left unchanged by
`is_success`. -/
theorem anta_C3_witness :
    ((runEvents TestResult.fresh [REvent.fail "a", REvent.success, REvent.fail "b"]).result = .failure ∧
      ∃ pre, (runEvents TestResult.fresh [REvent.fail "a", REvent.success, REvent.fail "b"]).messages =
        pre ++ failMsgs [REvent.fail "a", REvent.success, REvent.fail "b"]) ∧
    TestResult.is_success ⟨.failure, ["a"]⟩ = ⟨.failure, ["a"]⟩ :=
  ⟨anta_C3_failure_sticky.1 [REvent.fail "a", REvent.success, REvent.fail "b"] (by decide),
   anta_C3_failure_sticky.2 ⟨.failure, ["a"]⟩ rfl⟩

/-- Per-peer record extracted by `_check_bgp_vrfs`
(`anta/tests/routing/bgp.py` lines 17-53): peer state and the two message
queue counters. -/
structure PeerData where
  peerState : String
  inMsgQueue : Int
  outMsgQueue : Int
deriving DecidableEq, Repr

/-- One VRF of the `show bgp ipv4 unicast summary vrf all` JSON output: its
`peers` dictionary. -/
structure VrfData where
  peers : List (String × PeerData)
deriving DecidableEq, Repr

/-- The per-peer condition of `_check_bgp_vrfs` lines 37-41: the peer is
reported when its state is not `Established` or either message queue is
non-empty. -/
def badPeer (pd : PeerData) : Bool :=
  pd.peerState != "Established" || pd.inMsgQueue != 0 || pd.outMsgQueue != 0

/-- `_check_bgp_vrfs(bgp_vrfs)` from `anta/tests/routing/bgp.py` lines
17-53: for each VRF in iteration order, collect (via `setdefault` plus
`update`, i.e. in peer iteration order) the peers tripping the condition;
VRFs whose peers are all fine do not appear in the result. -/
def checkBgpVrfs : List (String × VrfData) → List (String × List (String × PeerData))
  | [] => []
  | (vrf, vd) :: rest =>
    if (vd.peers.filter fun q => badPeer q.2).isEmpty then checkBgpVrfs rest
    else (vrf, vd.peers.filter fun q => badPeer q.2) :: checkBgpVrfs rest

/-- Python `repr()` of a string without embedded quotes, as it appears
inside the `str()` of a dictionary. -/
def pyQuote (s : String) : String := "'" ++ s ++ "'"

/-- Python `str.join` with the ", " separator used by `str()` on a
dictionary. -/
def joinComma : List String → String
  | [] => ""
  | [x] => x
  | x :: y :: ys => x ++ ", " ++ joinComma (y :: ys)

/-- Python `str()` of one inner peer dictionary built by
`_check_bgp_vrfs` (keys in insertion order `peerState`, `inMsgQueue`,
`outMsgQueue`). -/
def peerDataStr (pd : PeerData) : String :=
  "\x7b'peerState': " ++ pyQuote pd.peerState ++ ", 'inMsgQueue': " ++ toString pd.inMsgQueue
    ++ ", 'outMsgQueue': " ++ toString pd.outMsgQueue ++ "\x7d"

/-- Python `str()` of the per-VRF dictionary of offending peers. -/
def peersStr (ps : List (String × PeerData)) : String :=
  "\x7b" ++ joinComma (ps.map fun q => pyQuote q.1 ++ ": " ++ peerDataStr q.2) ++ "\x7d"

/-- Python `str()` of the whole `state_issue` dictionary. -/
def stateIssueStr (si : List (String × List (String × PeerData))) : String :=
  "\x7b" ++ joinComma (si.map fun q => pyQuote q.1 ++ ": " ++ peersStr q.2) ++ "\x7d"

/-- The failure message of `VerifyBGPIPv4UnicastState.test`
(`anta/tests/routing/bgp.py` line 80). -/
def bgpNotUpMsg (si : List (String × List (String × PeerData))) : String :=
  "Some IPv4 Unicast BGP Peer are not up: " ++ stateIssueStr si

/-- The evaluation step of `VerifyBGPIPv4UnicastState.test`
(`anta/tests/routing/bgp.py` lines 74-80) on the `vrfs` object of the
collected output of `show bgp ipv4 unicast summary vrf all`: run
`_check_bgp_vrfs` and report success when no issue was found, otherwise
one failure naming the offending dictionary. -/
def runVerifyBGPIPv4UnicastState (vrfs : List (String × VrfData)) : TestResult :=
  if (checkBgpVrfs vrfs).isEmpty then TestResult.fresh.is_success
  else TestResult.fresh.is_failure (bgpNotUpMsg (checkBgpVrfs vrfs))

/-- `pat` occurs as a contiguous substring of `s`. -/
def strIncludes (s pat : String) : Prop := ∃ l r, s = l ++ pat ++ r

theorem strIncludes_self (s : String) : strIncludes s s :=
  ⟨"", "", by rw [String.empty_append, String.append_empty]⟩

theorem strIncludes_append_right (t : String) {s pat : String} (h : strIncludes s pat) :
    strIncludes (s ++ t) pat := by
  obtain ⟨l, r, rfl⟩ := h
  exact ⟨l, r ++ t, String.append_assoc (l ++ pat) r t⟩

theorem strIncludes_append_left (s : String) {t pat : String} (h : strIncludes t pat) :
    strIncludes (s ++ t) pat := by
  obtain ⟨l, r, rfl⟩ := h
  exact ⟨s ++ l, r, by simp [String.append_assoc]⟩

theorem strIncludes_trans {s t u : String} (h1 : strIncludes s t) (h2 : strIncludes t u) :
    strIncludes s u := by
  obtain ⟨l1, r1, rfl⟩ := h1
  obtain ⟨l2, r2, rfl⟩ := h2
  exact ⟨l1 ++ l2, r2 ++ r1, by simp [String.append_assoc]⟩

theorem joinComma_includes (xs : List String) (x : String) (h : x ∈ xs) :
    strIncludes (joinComma xs) x := by
  induction xs with
  | nil => cases h
  | cons hd tl ih =>
    cases tl with
    | nil =>
      rcases List.mem_cons.mp h with h1 | h2
      · subst h1
        exact strIncludes_self x
      · cases h2
    | cons y ys =>
      rcases List.mem_cons.mp h with h1 | h2
      · subst h1
        exact strIncludes_append_right _ (strIncludes_append_right _ (strIncludes_self x))
      · exact strIncludes_append_left _ (ih h2)

theorem checkBgpVrfs_nil_of_good (vrfs : List (String × VrfData))
    (h : ∀ p ∈ vrfs, ∀ q ∈ p.2.peers,
      q.2.peerState = "Established" ∧ q.2.inMsgQueue = 0 ∧ q.2.outMsgQueue = 0) :
    checkBgpVrfs vrfs = [] := by
  induction vrfs with
  | nil => rfl
  | cons hd tl ih =>
    obtain ⟨v, vd⟩ := hd
    have hfil : (vd.peers.filter fun q => badPeer q.2) = [] := by
      apply List.filter_eq_nil_iff.mpr
      intro q hq
      obtain ⟨h1, h2, h3⟩ := h (v, vd) (List.mem_cons_self _ _) q hq
      simp [badPeer, h1, h2, h3]
    simp only [checkBgpVrfs, hfil, List.isEmpty_nil, if_true]
    exact ih fun p hp => h p (List.mem_cons_of_mem _ hp)

theorem mem_checkBgpVrfs (vrfs : List (String × VrfData)) (v : String) (vd : VrfData)
    (h : (v, vd) ∈ vrfs) (hbad : (vd.peers.filter fun q => badPeer q.2) ≠ []) :
    (v, vd.peers.filter fun q => badPeer q.2) ∈ checkBgpVrfs vrfs := by
  induction vrfs with
  | nil => cases h
  | cons hd tl ih =>
    obtain ⟨v', vd'⟩ := hd
    simp only [checkBgpVrfs]
    rcases List.mem_cons.mp h with h1 | h2
    · obtain ⟨rfl, rfl⟩ := Prod.mk.injEq .. ▸ h1
      rw [if_neg fun hE => hbad (List.isEmpty_iff.mp hE)]
      exact List.mem_cons_self _ _
    · by_cases hE : (vd'.peers.filter fun q => badPeer q.2).isEmpty
      · rw [if_pos hE]
        exact ih h2
      · rw [if_neg hE]
        exact List.mem_cons_of_mem _ (ih h2)

/-- C6: on the collected output of `show bgp ipv4 unicast summary vrf all`,
`VerifyBGPIPv4UnicastState` reports success when every peer of every
returned VRF is `Established` with both message queues at 0, and reports
failure when some peer is `Idle`, with a single message that names both the
VRF and the peer (each appearing quoted inside the printed `state_issue`
dictionary). -/
theorem anta_C6_VerifyBGPIPv4UnicastState (vrfs : List (String × VrfData)) :
    ((∀ p ∈ vrfs, ∀ q ∈ p.2.peers,
        q.2.peerState = "Established" ∧ q.2.inMsgQueue = 0 ∧ q.2.outMsgQueue = 0) →
      (runVerifyBGPIPv4UnicastState vrfs).result = .success) ∧
    (∀ v vd p pd, (v, vd) ∈ vrfs → (p, pd) ∈ vd.peers → pd.peerState = "Idle" →
      (runVerifyBGPIPv4UnicastState vrfs).result = .failure ∧
      ∃ m, (runVerifyBGPIPv4UnicastState vrfs).messages = [m] ∧
        strIncludes m ("'" ++ v ++ "'") ∧ strIncludes m ("'" ++ p ++ "'")) := by
  constructor
  · intro h
    have hnil : checkBgpVrfs vrfs = [] := checkBgpVrfs_nil_of_good vrfs h
    simp [runVerifyBGPIPv4UnicastState, hnil, TestResult.is_success, TestResult.fresh]
  · intro v vd p pd hv hp hIdle
    have h1 : (pd.peerState != "Established") = true := by
      rw [hIdle]
      decide
    have hbadB : badPeer pd = true := by simp [badPeer, h1]
    have hpbad : (p, pd) ∈ vd.peers.filter fun q => badPeer q.2 :=
      List.mem_filter.mpr ⟨hp, hbadB⟩
    have hbadne : (vd.peers.filter fun q => badPeer q.2) ≠ [] := List.ne_nil_of_mem hpbad
    have hsi : (v, vd.peers.filter fun q => badPeer q.2) ∈ checkBgpVrfs vrfs :=
      mem_checkBgpVrfs vrfs v vd hv hbadne
    have hsine : checkBgpVrfs vrfs ≠ [] := List.ne_nil_of_mem hsi
    have hne : (checkBgpVrfs vrfs).isEmpty = false := by
      cases hE : (checkBgpVrfs vrfs).isEmpty with
      | false => rfl
      | true => exact absurd (List.isEmpty_iff.mp hE) hsine
    have hrun : runVerifyBGPIPv4UnicastState vrfs =
        TestResult.fresh.is_failure (bgpNotUpMsg (checkBgpVrfs vrfs)) := by
      simp [runVerifyBGPIPv4UnicastState, hne]
    have hentry :
        (pyQuote v ++ ": " ++ peersStr (vd.peers.filter fun q => badPeer q.2)) ∈
          (checkBgpVrfs vrfs).map (fun q => pyQuote q.1 ++ ": " ++ peersStr q.2) :=
      List.mem_map_of_mem _ hsi
    have hmsg_entry : strIncludes (bgpNotUpMsg (checkBgpVrfs vrfs))
        (pyQuote v ++ ": " ++ peersStr (vd.peers.filter fun q => badPeer q.2)) :=
      strIncludes_append_left _ (strIncludes_append_right _
        (strIncludes_append_left _ (joinComma_includes _ _ hentry)))
    have hpe :
        (pyQuote p ++ ": " ++ peerDataStr pd) ∈
          (vd.peers.filter fun q => badPeer q.2).map
            (fun q => pyQuote q.1 ++ ": " ++ peerDataStr q.2) :=
      List.mem_map_of_mem _ hpbad
    have hpeers : strIncludes (peersStr (vd.peers.filter fun q => badPeer q.2))
        (pyQuote p ++ ": " ++ peerDataStr pd) :=
      strIncludes_append_right _ (strIncludes_append_left _ (joinComma_includes _ _ hpe))
    have hentry_peers :
        strIncludes (pyQuote v ++ ": " ++ peersStr (vd.peers.filter fun q => badPeer q.2))
          (peersStr (vd.peers.filter fun q => badPeer q.2)) :=
      strIncludes_append_left _ (strIncludes_self _)
    have hv_in : strIncludes (bgpNotUpMsg (checkBgpVrfs vrfs)) (pyQuote v) :=
      strIncludes_trans hmsg_entry
        (strIncludes_append_right _ (strIncludes_append_right _ (strIncludes_self _)))
    have hp_in : strIncludes (bgpNotUpMsg (checkBgpVrfs vrfs)) (pyQuote p) :=
      strIncludes_trans
        (strIncludes_trans (strIncludes_trans hmsg_entry hentry_peers) hpeers)
        (strIncludes_append_right _ (strIncludes_append_right _ (strIncludes_self _)))
    refine ⟨by rw [hrun]; rfl, bgpNotUpMsg (checkBgpVrfs vrfs), by rw [hrun]; rfl, ?_, ?_⟩
    · exact hv_in
    · exact hp_in

/-- Witness for C6: Scenario A (one VRF, one peer `Established`, empty
queues) yields success; Scenario B (same peer `Idle`) yields failure with
a message quoting the VRF and the peer. -/
theorem anta_C6_witness :
    (runVerifyBGPIPv4UnicastState
        [("default", ⟨[("10.1.255.0", ⟨"Established", 0, 0⟩)]⟩)]).result = .success ∧
    ((runVerifyBGPIPv4UnicastState
        [("default", ⟨[("10.1.255.0", ⟨"Idle", 0, 0⟩)]⟩)]).result = .failure ∧
      ∃ m, (runVerifyBGPIPv4UnicastState
          [("default", ⟨[("10.1.255.0", ⟨"Idle", 0, 0⟩)]⟩)]).messages = [m] ∧
        strIncludes m ("'" ++ "default" ++ "'") ∧ strIncludes m ("'" ++ "10.1.255.0" ++ "'")) :=
  ⟨(anta_C6_VerifyBGPIPv4UnicastState
      [("default", ⟨[("10.1.255.0", ⟨"Established", 0, 0⟩)]⟩)]).1 (by decide),
   (anta_C6_VerifyBGPIPv4UnicastState
      [("default", ⟨[("10.1.255.0", ⟨"Idle", 0, 0⟩)]⟩)]).2
      "default" ⟨[("10.1.255.0", ⟨"Idle", 0, 0⟩)]⟩ "10.1.255.0" ⟨"Idle", 0, 0⟩
      (by decide) (by decide) rfl⟩

/-- eAPI protocol version carried by an `AntaCommand` and forwarded to the
transport by `collect` (`version` is an int or the literal `"latest"`). -/
inductive EapiVersion where
  | latest
  | num (n : Int)
deriving DecidableEq, Repr

/-- Output format of an `AntaCommand`: the `ofmt` field is always one of
`json` and `text`, which is why `collect` always selects `response[1]`
(`anta/device.py` lines 267-269). -/
inductive Ofmt where
  | json
  | text
deriving DecidableEq, Repr

/-- An exception raised by the transport call, classified exactly as the
`except` clauses of `AsyncEOSDevice.collect` and `refresh` distinguish
them (`anta/device.py` lines 273-282 and 303-306): `EapiCommandError`,
`HTTPError`, `ConnectError`, or any other exception. -/
inductive PyException where
  | eapiCommandError (errmsg : String)
  | httpError (message : String)
  | connectError (message : String)
  | otherExc (message : String)
deriving DecidableEq, Repr

/-- The request/response envelope `AntaCommand` as used by
`anta/device.py`: command text, eAPI version, optional revision, output
format, and the two result slots `output` (structured payload, left
abstract as a `PyVal`) and `failed` (captured exception) that `collect`
mutates. -/
structure AntaCommand where
  command : String
  version : EapiVersion
  revision : Option Int
  ofmt : Ofmt
  output : Option PyVal
  failed : Option PyException
deriving DecidableEq, Repr

/-- State of an `AsyncEOSDevice` (`anta/device.py` lines 71-87 and
169-207): the `AntaDevice` attributes plus the eAPI session endpoint and
the credentials held by the session and SSH options. -/
structure AsyncEOSDevice where
  name : String
  tags : List String
  hw_model : Option String
  is_online : Bool
  established : Bool
  host : String
  port : Option Nat
  username : String
  password : String
  enable_password : Option String
  ssh_port : Option Nat
deriving DecidableEq, Repr

/-- `AsyncEOSDevice.__init__` combined with `AntaDevice.__init__`
(`anta/device.py` lines 71-87 and 169-207): default name
`f"{host}:{port}"`, the `all` tag appended when missing, and the device
constructed offline, not established, with no hardware model. -/
def mkAsyncEOSDevice (host username password : String) (name : Option String)
    (enable_password : Option String) (port : Option Nat) (ssh_port : Option Nat)
    (tags : Option (List String)) : AsyncEOSDevice :=
  { name := name.getD
      (host ++ ":" ++ (match port with | some p => toString p | Option.none => "None"))
    tags := if "all" ∈ tags.getD [] then tags.getD [] else tags.getD [] ++ ["all"]
    hw_model := Option.none
    is_online := false
    established := false
    host := host
    port := port
    username := username
    password := password
    enable_password := enable_password
    ssh_port := ssh_port }

/-- One entry of the `cmds` list sent to eAPI by `collect`: the command
string, the optional `input` of the `enable` step, and the optional
revision. -/
structure CliEntry where
  cmd : String
  input : Option String
  revision : Option Int
deriving DecidableEq, Repr

/-- The eAPI request issued by one `collect` call (`anta/device.py` lines
245-264): the built command list — an `enable` step carrying the enable
password when one is configured, then the command with its optional
revision — together with the output format and version. -/
structure EapiRequest where
  cmds : List CliEntry
  ofmt : Ofmt
  version : EapiVersion
deriving DecidableEq, Repr

/-- The request `collect` builds for a command on a device. -/
def AsyncEOSDevice.request (d : AsyncEOSDevice) (c : AntaCommand) : EapiRequest :=
  { cmds :=
      (match d.enable_password with
        | some pw => [⟨"enable", some pw, Option.none⟩]
        | Option.none => [⟨"enable", Option.none, Option.none⟩]) ++
      (match c.revision with
        | some r => [⟨c.command, Option.none, some r⟩]
        | Option.none => [⟨c.command, Option.none, Option.none⟩])
    ofmt := c.ofmt
    version := c.version }

/-- Outcome of the `self._session.cli(...)` transport call made by
`collect`: the two-element response list (`enable` output, then the
command output), or a raised exception. -/
inductive TransportOutcome where
  | ok (enableOut cmdOut : PyVal)
  | raised (e : PyException)
deriving DecidableEq, Repr

/-- `AsyncEOSDevice.collect` (`anta/device.py` lines 234-283), returning
the post-call device state (no attribute of `self` is assigned, so it is
the input state), the issued request, and the updated command. On success
the command's `output` receives `response[1]` (the `ofmt` of a command is
always `json` or `text`); each `except` arm records the raised exception
on `failed`; the trailing broad `except Exception` handles every remaining
outcome, so the translation is a total function — no exception escapes the
call. -/
def AsyncEOSDevice.collect (d : AsyncEOSDevice) (c : AntaCommand) (o : TransportOutcome) :
    AsyncEOSDevice × EapiRequest × AntaCommand :=
  (d, d.request c,
    match o with
    | .ok _ cmdOut => { c with output := some cmdOut }
    | .raised e => { c with failed := some e })

/-- `AntaDevice.collect_commands` (`anta/device.py` lines 124-131):
`asyncio.gather` of one `collect` call per command of the batch, each with
the transport outcome of its own request. -/
def AsyncEOSDevice.collect_commands (d : AsyncEOSDevice) (cs : List AntaCommand)
    (os : List TransportOutcome) : List EapiRequest × List AntaCommand :=
  (((cs.zip os).map fun p => d.collect p.1 p.2).map fun t => t.2.1,
   ((cs.zip os).map fun p => d.collect p.1 p.2).map fun t => t.2.2)

/-- Command identity per the spec: text, output format, protocol version
and revision. -/
def cmdIdentity (c : AntaCommand) : String × Ofmt × EapiVersion × Option Int :=
  (c.command, c.ofmt, c.version, c.revision)

/-- Python truthiness of the optional `hw_model` string, as evaluated by
`bool(self.is_online and self.hw_model)` (`anta/device.py` line 314):
`None` and the empty string are falsy. -/
def pyTruthy : Option String → Bool
  | Option.none => false
  | some s => s != ""

/-- Outcome of the `show version` identity call inside `refresh`: a
response dictionary that may or may not carry the `modelName` key, or a
raised exception. -/
inductive ShowVersionOutcome where
  | ok (modelName : Option String)
  | raised (e : PyException)
deriving DecidableEq, Repr

/-- The observable effect of one `refresh()` call: the commands sent to
the device, and either the resulting device state or the exception that
escaped the call. -/
structure RefreshRun where
  requests : List String
  outcome : Except PyException AsyncEOSDevice
deriving Repr

/-- `AsyncEOSDevice.refresh` (`anta/device.py` lines 285-314): set
`is_online` from the liveness probe; only when online, run `show version`
and store its `modelName` when the key is present — `EapiCommandError`,
`HTTPError` and `ConnectError` are caught (warning only, state untouched),
any other exception is not caught and escapes; finally (on every
non-raising path) set `established = bool(is_online and hw_model)`. -/
def AsyncEOSDevice.refresh (d : AsyncEOSDevice) (connOk : Bool) (o : ShowVersionOutcome) :
    RefreshRun :=
  let d1 : AsyncEOSDevice := { d with is_online := connOk }
  let step : Except PyException AsyncEOSDevice :=
    if connOk then
      match o with
      | .ok (some m) => .ok { d1 with hw_model := some m }
      | .ok Option.none => .ok d1
      | .raised (.eapiCommandError _) => .ok d1
      | .raised (.httpError _) => .ok d1
      | .raised (.connectError _) => .ok d1
      | .raised (.otherExc m) => .error (.otherExc m)
    else .ok d1
  { requests := if connOk then ["show version"] else []
    outcome := step.map fun d2 => { d2 with established := d2.is_online && pyTruthy d2.hw_model } }

/-- A Python object compared against an `AsyncEOSDevice` by `__eq__`:
either another `AsyncEOSDevice`, or a value of any other type (carrying an
arbitrary description). -/
inductive PyObject where
  | dev (d : AsyncEOSDevice)
  | nonDevice (descr : String)
deriving DecidableEq, Repr

/-- `AsyncEOSDevice.__eq__` (`anta/device.py` lines 225-232): `False` for
an operand that is not an `AsyncEOSDevice`, otherwise equality of the
session host and the session (eAPI) port. -/
def AsyncEOSDevice.eq (a : AsyncEOSDevice) : PyObject → Bool
  | .dev b => a.host == b.host && a.port == b.port
  | .nonDevice _ => false

/-- C1: `collect` on a fresh command (no output, no failure recorded yet)
never lets an exception escape (the translation is total over every
transport outcome, including arbitrary exceptions); on transport success
it populates `output` with the command's response and leaves `failed`
unset; on any raised exception it records the exception on `failed` and
leaves `output` unset; afterwards exactly one of the two slots is set. -/
theorem anta_C1_collect (d : AsyncEOSDevice) (c : AntaCommand) (o : TransportOutcome)
    (hout : c.output = Option.none) (hfail : c.failed = Option.none) :
    (∀ eo co, o = .ok eo co →
      ((d.collect c o).2.2).output = some co ∧ ((d.collect c o).2.2).failed = Option.none) ∧
    (∀ e, o = .raised e →
      ((d.collect c o).2.2).failed = some e ∧ ((d.collect c o).2.2).output = Option.none) ∧
    ((((d.collect c o).2.2).output.isSome ∧ ((d.collect c o).2.2).failed = Option.none) ∨
      (((d.collect c o).2.2).failed.isSome ∧ ((d.collect c o).2.2).output = Option.none)) := by
  cases o with
  | ok eo co =>
    refine ⟨?_, ?_, ?_⟩
    · intro eo' co' h
      cases h
      exact ⟨rfl, hfail⟩
    · intro e h
      cases h
    · left
      exact ⟨rfl, hfail⟩
  | raised e =>
    refine ⟨?_, ?_, ?_⟩
    · intro eo' co' h
      cases h
    · intro e' h
      cases h
      exact ⟨rfl, hout⟩
    · right
      exact ⟨rfl, hout⟩

/-- Witness for C1: a concrete device and fresh command, collected once
with a successful outcome and once with a raised connection error. -/
theorem anta_C1_witness :
    ((AsyncEOSDevice.collect
        ⟨"leaf1", ["all"], Option.none, false, false, "leaf1", some 443, "admin", "pw",
          Option.none, some 22⟩
        ⟨"show version", .latest, Option.none, .json, Option.none, Option.none⟩
        (.ok (.str "enable") (.str "resp"))).2.2).output = some (.str "resp") ∧
    ((AsyncEOSDevice.collect
        ⟨"leaf1", ["all"], Option.none, false, false, "leaf1", some 443, "admin", "pw",
          Option.none, some 22⟩
        ⟨"show version", .latest, Option.none, .json, Option.none, Option.none⟩
        (.raised (.connectError "refused"))).2.2).failed = some (.connectError "refused") :=
  ⟨((anta_C1_collect _ _ _ rfl rfl).1 (.str "enable") (.str "resp") rfl).1,
   ((anta_C1_collect _ ⟨"show version", .latest, Option.none, .json, Option.none, Option.none⟩
      (.raised (.connectError "refused")) rfl rfl).2.1 (.connectError "refused") rfl).1⟩

/-- C7: `collect` mutates only the command object passed to it — the
device component of the translated call equals the input device, and so
does every individual device attribute (name, tags, hardware model,
online and established flags, session endpoint, credentials, enable
password, SSH port), on success and on failure alike. -/
theorem anta_C7_collect_frame (d : AsyncEOSDevice) (c : AntaCommand) (o : TransportOutcome) :
    (d.collect c o).1 = d ∧
    (d.collect c o).1.name = d.name ∧ (d.collect c o).1.tags = d.tags ∧
    (d.collect c o).1.hw_model = d.hw_model ∧ (d.collect c o).1.is_online = d.is_online ∧
    (d.collect c o).1.established = d.established ∧ (d.collect c o).1.host = d.host ∧
    (d.collect c o).1.port = d.port ∧ (d.collect c o).1.username = d.username ∧
    (d.collect c o).1.password = d.password ∧
    (d.collect c o).1.enable_password = d.enable_password ∧
    (d.collect c o).1.ssh_port = d.ssh_port :=
  ⟨rfl, rfl, rfl, rfl, rfl, rfl, rfl, rfl, rfl, rfl, rfl, rfl⟩

/-- C8: `__eq__` on `AsyncEOSDevice` holds exactly on equal session host
and eAPI port, is `False` against any non-`AsyncEOSDevice` object, and the
induced relation on devices is an equivalence. -/
theorem anta_C8_device_eq :
    (∀ a b : AsyncEOSDevice, a.eq (.dev b) = true ↔ a.host = b.host ∧ a.port = b.port) ∧
    (∀ (a : AsyncEOSDevice) (s : String), a.eq (.nonDevice s) = false) ∧
    Equivalence (fun a b : AsyncEOSDevice => a.eq (.dev b) = true) := by
  have hiff : ∀ a b : AsyncEOSDevice, a.eq (.dev b) = true ↔ a.host = b.host ∧ a.port = b.port := by
    intro a b
    simp [AsyncEOSDevice.eq]
  refine ⟨hiff, fun a s => rfl, ?_, ?_, ?_⟩
  · intro a
    exact (hiff a a).mpr ⟨rfl, rfl⟩
  · intro a b h
    obtain ⟨h1, h2⟩ := (hiff a b).mp h
    exact (hiff b a).mpr ⟨h1.symm, h2.symm⟩
  · intro a b c h1 h2
    obtain ⟨h11, h12⟩ := (hiff a b).mp h1
    obtain ⟨h21, h22⟩ := (hiff b c).mp h2
    exact (hiff a c).mpr ⟨h11.trans h21, h12.trans h22⟩

/-- Witness for C8: two devices that differ in name, tags and credentials
but share host and port compare equal; a device never equals a non-device
object. -/
theorem anta_C8_witness :
    AsyncEOSDevice.eq
      ⟨"dc1-leaf1", ["all"], Option.none, false, false, "localhost", some 8443, "admin", "pw",
        Option.none, some 22⟩
      (.dev ⟨"spare", ["prod", "all"], some "cEOS", true, true, "localhost", some 8443, "ops",
        "secret", some "enab", some 2222⟩) = true ∧
    AsyncEOSDevice.eq
      ⟨"dc1-leaf1", ["all"], Option.none, false, false, "localhost", some 8443, "admin", "pw",
        Option.none, some 22⟩ (.nonDevice "a string") = false :=
  ⟨(anta_C8_device_eq.1 _ _).mpr ⟨rfl, rfl⟩, anta_C8_device_eq.2.1 _ "a string"⟩

/-- Counterexample for C2: a batch holding two commands with identical
identity (here two copies of the same fresh command) issues the underlying
request twice during collection — `collect_commands` gathers one `collect`
per list element and never deduplicates — contradicting "issued exactly
once". -/
theorem anta_C2_counterexample :
    ((AsyncEOSDevice.collect_commands
        ⟨"leaf1", ["all"], Option.none, false, false, "leaf1", some 443, "admin", "pw",
          Option.none, some 22⟩
        [⟨"show version", .latest, Option.none, .json, Option.none, Option.none⟩,
         ⟨"show version", .latest, Option.none, .json, Option.none, Option.none⟩]
        [.ok (.str "e") (.str "r"), .ok (.str "e") (.str "r")]).1.filter
      (fun q => q == AsyncEOSDevice.request
        ⟨"leaf1", ["all"], Option.none, false, false, "leaf1", some 443, "admin", "pw",
          Option.none, some 22⟩
        ⟨"show version", .latest, Option.none, .json, Option.none, Option.none⟩)).length = 2 ∧
    (2 : Nat) ≠ 1 :=
  ⟨rfl, by decide⟩

/-- C2 amended: per device, `collect_commands` issues exactly one request
per command instance of the batch — in particular commands with identical
identity are each issued, with no deduplication — and each command object
of the batch receives its own result from its own `collect` call. -/
theorem anta_C2_collect_commands (d : AsyncEOSDevice) (cs : List AntaCommand)
    (os : List TransportOutcome) (h : cs.length ≤ os.length) :
    (d.collect_commands cs os).1 = cs.map (fun c => d.request c) ∧
    (d.collect_commands cs os).2 = (cs.zip os).map (fun p => (d.collect p.1 p.2).2.2) := by
  constructor
  · have h1 : ((cs.zip os).map fun p => d.collect p.1 p.2).map (fun t => t.2.1) =
        (cs.zip os).map fun p => d.request p.1 := by
      rw [List.map_map]
      rfl
    have h2 : ((cs.zip os).map Prod.fst).map (fun c => d.request c) =
        (cs.zip os).map fun p => d.request p.1 := by
      rw [List.map_map]
      rfl
    show ((cs.zip os).map fun p => d.collect p.1 p.2).map (fun t => t.2.1) = _
    rw [h1, ← h2, List.map_fst_zip cs os h]
  · show ((cs.zip os).map fun p => d.collect p.1 p.2).map (fun t => t.2.2) = _
    rw [List.map_map]
    rfl

/-- Witness for C2 (amended) at a concrete duplicate batch. -/
theorem anta_C2_witness :
    (AsyncEOSDevice.collect_commands
        ⟨"leaf1", ["all"], Option.none, false, false, "leaf1", some 443, "admin", "pw",
          Option.none, some 22⟩
        [⟨"show vlan", .latest, Option.none, .json, Option.none, Option.none⟩,
         ⟨"show vlan", .latest, Option.none, .json, Option.none, Option.none⟩]
        [.ok (.str "e") (.str "r"), .raised (.httpError "503")]).1 =
      [⟨"show vlan", .latest, Option.none, .json, Option.none, Option.none⟩,
       ⟨"show vlan", .latest, Option.none, .json, Option.none, Option.none⟩].map
        (fun c => AsyncEOSDevice.request
          ⟨"leaf1", ["all"], Option.none, false, false, "leaf1", some 443, "admin", "pw",
            Option.none, some 22⟩ c) ∧
    (AsyncEOSDevice.collect_commands
        ⟨"leaf1", ["all"], Option.none, false, false, "leaf1", some 443, "admin", "pw",
          Option.none, some 22⟩
        [⟨"show vlan", .latest, Option.none, .json, Option.none, Option.none⟩,
         ⟨"show vlan", .latest, Option.none, .json, Option.none, Option.none⟩]
        [.ok (.str "e") (.str "r"), .raised (.httpError "503")]).2 =
      ([⟨"show vlan", .latest, Option.none, .json, Option.none, Option.none⟩,
        ⟨"show vlan", .latest, Option.none, .json, Option.none, Option.none⟩].zip
          [TransportOutcome.ok (.str "e") (.str "r"), .raised (.httpError "503")]).map
        (fun p => (AsyncEOSDevice.collect
          ⟨"leaf1", ["all"], Option.none, false, false, "leaf1", some 443, "admin", "pw",
            Option.none, some 22⟩ p.1 p.2).2.2) :=
  anta_C2_collect_commands _ _ _ (by decide)

/-- Counterexample for C4: `refresh` does raise when the transport call
fails with an exception outside the classified classes (only
`EapiCommandError`, `HTTPError` and `ConnectError` are caught there,
unlike in `collect`); and when `show version` reports an empty
`modelName`, the device ends up online with `hw_model` set yet
`established = False`, because `bool(is_online and hw_model)` tests
truthiness, not presence. -/
theorem anta_C4_counterexample :
    (AsyncEOSDevice.refresh
        ⟨"leaf1", ["all"], Option.none, false, false, "leaf1", some 443, "admin", "pw",
          Option.none, some 22⟩
        true (.raised (.otherExc "boom"))).outcome =
      Except.error (PyException.otherExc "boom") ∧
    (AsyncEOSDevice.refresh
        ⟨"leaf1", ["all"], Option.none, false, false, "leaf1", some 443, "admin", "pw",
          Option.none, some 22⟩
        true (.ok (some ""))).outcome =
      Except.ok ⟨"leaf1", ["all"], some "", true, false, "leaf1", some 443, "admin", "pw",
        Option.none, some 22⟩ :=
  ⟨rfl, rfl⟩

/-- C4 amended: `refresh` attempts the identity command `show version`
exactly when the liveness probe reported the device reachable; it never
raises as long as any transport failure is one of the classified classes
(eAPI command error, HTTP error, connection error); and whenever it
returns normally the resulting state satisfies `is_online` = probe result
and `established = is_online AND hw_model is a non-empty string`. -/
theorem anta_C4_refresh (d : AsyncEOSDevice) (online : Bool) (o : ShowVersionOutcome) :
    ((d.refresh online o).requests = if online then ["show version"] else []) ∧
    ((∀ m, o ≠ .raised (.otherExc m)) → ∃ d', (d.refresh online o).outcome = .ok d') ∧
    (∀ d', (d.refresh online o).outcome = .ok d' →
      d'.is_online = online ∧ d'.established = (online && pyTruthy d'.hw_model)) := by
  refine ⟨rfl, ?_, ?_⟩
  · intro hno
    cases online with
    | false => exact ⟨_, rfl⟩
    | true =>
      cases o with
      | ok mn =>
        cases mn with
        | some m => exact ⟨_, rfl⟩
        | none => exact ⟨_, rfl⟩
      | raised e =>
        cases e with
        | eapiCommandError m => exact ⟨_, rfl⟩
        | httpError m => exact ⟨_, rfl⟩
        | connectError m => exact ⟨_, rfl⟩
        | otherExc m => exact absurd rfl (hno m)
  · intro d' hd'
    cases online with
    | false =>
      cases hd'
      exact ⟨rfl, rfl⟩
    | true =>
      cases o with
      | ok mn =>
        cases mn with
        | some m =>
          cases hd'
          exact ⟨rfl, rfl⟩
        | none =>
          cases hd'
          exact ⟨rfl, rfl⟩
      | raised e =>
        cases e with
        | eapiCommandError m =>
          cases hd'
          exact ⟨rfl, rfl⟩
        | httpError m =>
          cases hd'
          exact ⟨rfl, rfl⟩
        | connectError m =>
          cases hd'
          exact ⟨rfl, rfl⟩
        | otherExc m => cases hd'

/-- Witness for C4 (amended): a concrete online refresh whose `show
version` call fails with a caught eAPI command error. -/
theorem anta_C4_witness :
    ((AsyncEOSDevice.refresh
        ⟨"leaf1", ["all"], Option.none, false, false, "leaf1", some 443, "admin", "pw",
          Option.none, some 22⟩
        true (.raised (.eapiCommandError "invalid command"))).requests =
      if true then ["show version"] else []) ∧
    (∃ d', (AsyncEOSDevice.refresh
        ⟨"leaf1", ["all"], Option.none, false, false, "leaf1", some 443, "admin", "pw",
          Option.none, some 22⟩
        true (.raised (.eapiCommandError "invalid command"))).outcome = .ok d') ∧
    (⟨"leaf1", ["all"], Option.none, true, false, "leaf1", some 443, "admin", "pw",
        Option.none, some 22⟩ : AsyncEOSDevice).is_online = true ∧
    (⟨"leaf1", ["all"], Option.none, true, false, "leaf1", some 443, "admin", "pw",
        Option.none, some 22⟩ : AsyncEOSDevice).established =
      (true && pyTruthy (⟨"leaf1", ["all"], Option.none, true, false, "leaf1", some 443,
        "admin", "pw", Option.none, some 22⟩ : AsyncEOSDevice).hw_model) :=
  ⟨(anta_C4_refresh _ true (.raised (.eapiCommandError "invalid command"))).1,
   (anta_C4_refresh _ true (.raised (.eapiCommandError "invalid command"))).2.1
     (fun m h => by cases h),
   (anta_C4_refresh
      ⟨"leaf1", ["all"], Option.none, false, false, "leaf1", some 443, "admin", "pw",
        Option.none, some 22⟩
      true (.raised (.eapiCommandError "invalid command"))).2.2 _ rfl⟩

/-- Counterexample for C5: a device whose previous refresh stored a
hardware model and that is unreachable now ends the call with `hw_model`
still set — `refresh` never resets `hw_model`, so "hw_model = None
regardless of the device's state before the call" fails. -/
theorem anta_C5_counterexample :
    (AsyncEOSDevice.refresh
        ⟨"leaf1", ["all"], some "cEOS-lab", true, true, "leaf1", some 443, "admin", "pw",
          Option.none, some 22⟩
        false (.ok Option.none)).outcome =
      Except.ok ⟨"leaf1", ["all"], some "cEOS-lab", false, false, "leaf1", some 443, "admin",
        "pw", Option.none, some 22⟩ ∧
    some "cEOS-lab" ≠ (Option.none : Option String) :=
  ⟨rfl, by simp⟩

/-- C5 amended: when the device is unreachable at refresh time the call
returns normally with `is_online = False`, `established = False` and
`hw_model` unchanged from before the call — hence `None` exactly for a
device still in its constructed state, since the constructor initialises
`hw_model` to `None` (together with offline and not-established flags). -/
theorem anta_C5_refresh_offline (d : AsyncEOSDevice) (o : ShowVersionOutcome) :
    (∃ d', (d.refresh false o).outcome = .ok d' ∧ d'.is_online = false ∧
      d'.established = false ∧ d'.hw_model = d.hw_model) ∧
    (∀ host username password name enable_password port ssh_port tags,
      (mkAsyncEOSDevice host username password name enable_password port ssh_port tags).hw_model
          = Option.none ∧
        (mkAsyncEOSDevice host username password name enable_password port ssh_port
          tags).is_online = false ∧
        (mkAsyncEOSDevice host username password name enable_password port ssh_port
          tags).established = false) :=
  ⟨⟨_, rfl, rfl, rfl, rfl⟩, fun _ _ _ _ _ _ _ _ => ⟨rfl, rfl, rfl⟩⟩
